import Mathlib

/-!
Verification of the PFS coordination server (`src/pfs/server/api_server.go`).

The server combines three external collaborators: a `Sharder` (path -> shard
index, total shard count), a `Router` (local master / local slave per shard,
remote client handles), and a storage `Driver` (per-shard init / read / write).
We embed each operation of `apiServer` as a pure Lean function that returns the
Go result (`Except Err _`, mirroring Go's `(value, error)` convention) together
with a trace of collaborator calls (`List Event`), in the order the Go code
makes them. Go errors are opaque values; we model them as strings.
-/

deriving instance DecidableEq for Except

namespace Pfs

/-- Go `error` values are opaque to the coordination layer; modelled as strings. -/
abbrev Err := String

/-- Go `pfs.GetFileRequest`: carries the routing key (path). -/
structure GetFileRequest where
  path : String
  deriving DecidableEq, Repr

/-- Go `pfs.PutFileRequest`: a unary message carrying the routing key and the
complete write payload as a byte field (`Value []byte`). Bytes are `Nat`s. -/
structure PutFileRequest where
  path : String
  value : List Nat
  deriving DecidableEq, Repr

/-- Go `pfs.InitRepositoryRequest`: carries the repository (modelled by its name). -/
structure InitRepositoryRequest where
  repository : String
  deriving DecidableEq, Repr

/-- Go `pfs.PullDiffRequest`: shard-addressed (payload opaque to the server stub). -/
structure PullDiffRequest where
  shard : Nat
  deriving DecidableEq, Repr

/-- Go `pfs.PushDiffRequest`: shard-addressed diff payload (opaque to the server stub). -/
structure PushDiffRequest where
  shard : Nat
  value : List Nat
  deriving DecidableEq, Repr

/-- Go `pfs.InitRepositoryResponse`: an empty message. -/
structure InitRepositoryResponse where
  deriving DecidableEq, Repr

/-- Go `pfs.PutFileResponse`: an empty message. -/
structure PutFileResponse where
  deriving DecidableEq, Repr

/-- Go `pfs.PushDiffResponse`: an empty message. -/
structure PushDiffResponse where
  deriving DecidableEq, Repr

/-- Go `pfs.ListFilesRequest` (payload irrelevant: the server ignores it). -/
structure ListFilesRequest where
  deriving DecidableEq, Repr

/-- Go `pfs.ListFilesResponse`: an empty message. -/
structure ListFilesResponse where
  deriving DecidableEq, Repr

/-- Go `pfs.GetParentRequest` (payload irrelevant: the server ignores it). -/
structure GetParentRequest where
  deriving DecidableEq, Repr

/-- Go `pfs.GetParentResponse`: an empty message. -/
structure GetParentResponse where
  deriving DecidableEq, Repr

/-- Go `pfs.GetChildrenRequest` (payload irrelevant: the server ignores it). -/
structure GetChildrenRequest where
  deriving DecidableEq, Repr

/-- Go `pfs.GetChildrenResponse`: an empty message. -/
structure GetChildrenResponse where
  deriving DecidableEq, Repr

/-- Go `pfs.BranchRequest` (payload irrelevant: the server ignores it). -/
structure BranchRequest where
  deriving DecidableEq, Repr

/-- Go `pfs.BranchResponse`: an empty message. -/
structure BranchResponse where
  deriving DecidableEq, Repr

/-- Go `pfs.CommitRequest` (payload irrelevant: the server ignores it). -/
structure CommitRequest where
  deriving DecidableEq, Repr

/-- Go `pfs.CommitResponse`: an empty message. -/
structure CommitResponse where
  deriving DecidableEq, Repr

/-- Go `pfs.GetRepositoryInfoRequest` (payload irrelevant: the server ignores it). -/
structure GetRepositoryInfoRequest where
  deriving DecidableEq, Repr

/-- Go `pfs.GetRepositoryInfoResponse`: an empty message. -/
structure GetRepositoryInfoResponse where
  deriving DecidableEq, Repr

/-- Go `pfs.GetCommitInfoRequest` (payload irrelevant: the server ignores it). -/
structure GetCommitInfoRequest where
  deriving DecidableEq, Repr

/-- Go `pfs.GetCommitInfoResponse`: an empty message. -/
structure GetCommitInfoResponse where
  deriving DecidableEq, Repr

/-- The `io.ReadCloser` returned by `drive.Driver.GetFile`, abstracted to the
two outcomes the coordination layer observes: the result of relaying its
contents to the caller (`protoutil.WriteToStreamingBytesServer`), and the
result of `Close` (`none` = closed cleanly, `some e` = Close returned error `e`). -/
structure ReadCloser where
  copyResult : Except Err Unit
  closeErr : Option Err
  deriving DecidableEq, Repr

/-- A remote `pfs.ApiClient` handle obtained from `route.Router.GetAPIClient`.
`getFile` is the combined outcome of opening the remote streaming call and
relaying it (`protoutil.RelayFromStreamingBytesClient`); `putFile` is the
remote unary call's result. -/
structure APIClient where
  getFile : GetFileRequest → Except Err Unit
  putFile : PutFileRequest → Except Err PutFileResponse

/-- Go `shard.Sharder`: maps a path to a shard index (may fail on malformed keys)
and reports the total shard count. -/
structure Sharder where
  getShard : String → Except Err Nat
  numShards : Nat

/-- Go `route.Router`: per-shard role queries and remote client lookup. -/
structure Router where
  isLocalMasterShard : Nat → Except Err Bool
  isLocalSlaveShard : Nat → Except Err Bool
  getAPIClient : Nat → Except Err APIClient

/-- Go `drive.Driver`: per-shard storage operations. `initRepository` and
`putFile` return `none` on success, `some e` on failure (Go's `error` result);
`putFile` receives the bytes of the `bytes.NewReader` the server constructs. -/
structure Driver where
  initRepository : String → Nat → Option Err
  getFile : String → Nat → Except Err ReadCloser
  putFile : String → Nat → List Nat → Option Err

/-- The `apiServer` struct: the three collaborators. -/
structure APIServer where
  sharder : Sharder
  router : Router
  driver : Driver

/-- One collaborator call made by the server, recorded in request order.
`closeStream` records the deferred `Close` of the read stream returned by the
driver (a method of the stream object, not a storage operation of its own). -/
inductive Event where
  | sharderGetShard (path : String)
  | routerIsMaster (shard : Nat)
  | routerIsSlave (shard : Nat)
  | routerGetClient (shard : Nat)
  | driverInit (repository : String) (shard : Nat)
  | driverGetFile (path : String) (shard : Nat)
  | driverPutFile (path : String) (shard : Nat) (value : List Nat)
  | closeStream (path : String) (shard : Nat)
  | remoteGetFile (shard : Nat) (request : GetFileRequest)
  | remotePutFile (shard : Nat) (request : PutFileRequest)
  deriving DecidableEq, Repr

/-- Is this event an invocation of a `StorageDriver` operation? -/
def Event.isDriverOp : Event → Bool
  | .driverInit _ _ => true
  | .driverGetFile _ _ => true
  | .driverPutFile _ _ _ => true
  | _ => false

/-- Is this event a remote call against another node? -/
def Event.isRemoteOp : Event → Bool
  | .remoteGetFile _ _ => true
  | .remotePutFile _ _ => true
  | _ => false

/-- Is this event a query of the ownership router? -/
def Event.isRouterOp : Event → Bool
  | .routerIsMaster _ => true
  | .routerIsSlave _ => true
  | .routerGetClient _ => true
  | _ => false

/-- Does this event mutate storage (a driver write operation)? -/
def Event.isStorageWrite : Event → Bool
  | .driverInit _ _ => true
  | .driverPutFile _ _ _ => true
  | _ => false

/-- The deferred `Close` logic of `GetFile`'s local branch:
`defer func() { if err := readCloser.Close(); err != nil && retErr == nil { retErr = err } }()`.
The relay result is kept if it is an error; otherwise a Close error becomes the
result. -/
def deferClose (rc : ReadCloser) : Except Err Unit :=
  match rc.copyResult with
  | .error e => .error e
  | .ok _ =>
    match rc.closeErr with
    | some e => .error e
    | none => .ok ()

/-- Go `apiServer.GetFile`: shard the path; if this node is local master, read via
the driver and relay the stream (with the deferred Close above); otherwise
obtain a remote client and issue the identical request against it, relaying the
remote stream. The returned trace lists the collaborator calls in order. -/
def getFile (a : APIServer) (request : GetFileRequest) :
    Except Err Unit × List Event :=
  match a.sharder.getShard request.path with
  | .error e => (.error e, [.sharderGetShard request.path])
  | .ok s =>
    match a.router.isLocalMasterShard s with
    | .error e => (.error e, [.sharderGetShard request.path, .routerIsMaster s])
    | .ok ok =>
      if ok then
        match a.driver.getFile request.path s with
        | .error e =>
          (.error e,
            [.sharderGetShard request.path, .routerIsMaster s,
             .driverGetFile request.path s])
        | .ok rc =>
          (deferClose rc,
            [.sharderGetShard request.path, .routerIsMaster s,
             .driverGetFile request.path s, .closeStream request.path s])
      else
        match a.router.getAPIClient s with
        | .error e =>
          (.error e,
            [.sharderGetShard request.path, .routerIsMaster s,
             .routerGetClient s])
        | .ok c =>
          (c.getFile request,
            [.sharderGetShard request.path, .routerIsMaster s,
             .routerGetClient s, .remoteGetFile s request])

/-- Go `apiServer.PutFile`: shard the path; if this node is local master, write
via the driver (which receives `bytes.NewReader(request.Value)`, i.e. exactly
the request's bytes); otherwise obtain a remote client and forward the
identical request. -/
def putFile (a : APIServer) (request : PutFileRequest) :
    Except Err PutFileResponse × List Event :=
  match a.sharder.getShard request.path with
  | .error e => (.error e, [.sharderGetShard request.path])
  | .ok s =>
    match a.router.isLocalMasterShard s with
    | .error e => (.error e, [.sharderGetShard request.path, .routerIsMaster s])
    | .ok ok =>
      if ok then
        match a.driver.putFile request.path s request.value with
        | some e =>
          (.error e,
            [.sharderGetShard request.path, .routerIsMaster s,
             .driverPutFile request.path s request.value])
        | none =>
          (.ok ⟨⟩,
            [.sharderGetShard request.path, .routerIsMaster s,
             .driverPutFile request.path s request.value])
      else
        match a.router.getAPIClient s with
        | .error e =>
          (.error e,
            [.sharderGetShard request.path, .routerIsMaster s,
             .routerGetClient s])
        | .ok c =>
          (c.putFile request,
            [.sharderGetShard request.path, .routerIsMaster s,
             .routerGetClient s, .remotePutFile s request])

/-- Go `apiServer.getShards(isShardFunc)`: loop `i = 0 .. numShards-1`, query the
role predicate, fail on the first error, collect the indices answering `true`.
`getShardsFrom p i fuel` covers indices `i, i+1, ..., i+fuel-1`. The Go code
collects into `map[int]bool`; we return the key set as the increasing list. -/
def getShardsFrom (p : Nat → Except Err Bool) : Nat → Nat → Except Err (List Nat)
  | _, 0 => .ok []
  | i, fuel + 1 =>
    match p i with
    | .error e => .error e
    | .ok b =>
      match getShardsFrom p (i + 1) fuel with
      | .error e => .error e
      | .ok rest => .ok (if b then i :: rest else rest)

/-- Go `apiServer.getShards` over all shards `0 .. numShards-1`. -/
def getShards (numShards : Nat) (p : Nat → Except Err Bool) : Except Err (List Nat) :=
  getShardsFrom p 0 numShards

/-- The per-shard loop body of `InitRepository`:
`for shard := range shards { if err := a.driver.InitRepository(...); err != nil { return nil, err } }`
applied along a given iteration order, fail-fast, recording one
`driverInit` event per call made. -/
def runInits (d : Driver) (repo : String) : List Nat → Except Err Unit × List Event
  | [] => (.ok (), [])
  | s :: rest =>
    match d.initRepository repo s with
    | some e => (.error e, [.driverInit repo s])
    | none =>
      match runInits d repo rest with
      | (r, tr) => (r, .driverInit repo s :: tr)

/-- Go `apiServer.InitRepository`: compute the master-shard set, apply the driver
init to each master shard (fail-fast), then compute the slave-shard set and
apply the driver init to each slave shard (fail-fast). The Go code iterates
each set with `for shard := range shards` over a `map[int]bool`, whose
iteration order is unspecified by the language; the orders actually taken are
passed explicitly as `mOrder` and `sOrder`, and the theorems constrain them to
be permutations of the computed sets, so every theorem quantifies over all
iteration orders Go may choose. The trace records the driver init calls in
order (role-predicate queries inside `getShards` are not traced; the claims
about this operation concern storage calls). -/
def initRepository (a : APIServer) (request : InitRepositoryRequest)
    (mOrder sOrder : List Nat) : Except Err InitRepositoryResponse × List Event :=
  match getShards a.sharder.numShards a.router.isLocalMasterShard with
  | .error e => (.error e, [])
  | .ok _ =>
    match runInits a.driver request.repository mOrder with
    | (.error e, tr) => (.error e, tr)
    | (.ok _, mtr) =>
      match getShards a.sharder.numShards a.router.isLocalSlaveShard with
      | .error e => (.error e, mtr)
      | .ok _ =>
        match runInits a.driver request.repository sOrder with
        | (.error e, str) => (.error e, mtr ++ str)
        | (.ok _, str) => (.ok ⟨⟩, mtr ++ str)

/-- Go `apiServer.ListFiles`: returns an empty response, touching no collaborator. -/
def listFiles (_ : APIServer) (_ : ListFilesRequest) :
    Except Err ListFilesResponse × List Event := (.ok ⟨⟩, [])

/-- Go `apiServer.GetParent`: returns an empty response, touching no collaborator. -/
def getParent (_ : APIServer) (_ : GetParentRequest) :
    Except Err GetParentResponse × List Event := (.ok ⟨⟩, [])

/-- Go `apiServer.GetChildren`: returns an empty response, touching no collaborator. -/
def getChildren (_ : APIServer) (_ : GetChildrenRequest) :
    Except Err GetChildrenResponse × List Event := (.ok ⟨⟩, [])

/-- Go `apiServer.Branch`: returns an empty response, touching no collaborator. -/
def branch (_ : APIServer) (_ : BranchRequest) :
    Except Err BranchResponse × List Event := (.ok ⟨⟩, [])

/-- Go `apiServer.Commit`: returns an empty response, touching no collaborator. -/
def commit (_ : APIServer) (_ : CommitRequest) :
    Except Err CommitResponse × List Event := (.ok ⟨⟩, [])

/-- Go `apiServer.PullDiff`: `return nil` - a stub; no routing, no collaborator call. -/
def pullDiff (_ : APIServer) (_ : PullDiffRequest) :
    Except Err Unit × List Event := (.ok (), [])

/-- Go `apiServer.PushDiff`: returns an empty response - a stub; no routing, no
collaborator call. -/
def pushDiff (_ : APIServer) (_ : PushDiffRequest) :
    Except Err PushDiffResponse × List Event := (.ok ⟨⟩, [])

/-- Go `apiServer.GetRepositoryInfo`: returns an empty response, touching no collaborator. -/
def getRepositoryInfo (_ : APIServer) (_ : GetRepositoryInfoRequest) :
    Except Err GetRepositoryInfoResponse × List Event := (.ok ⟨⟩, [])

/-- Go `apiServer.GetCommitInfo`: returns an empty response, touching no collaborator. -/
def getCommitInfo (_ : APIServer) (_ : GetCommitInfoRequest) :
    Except Err GetCommitInfoResponse × List Event := (.ok ⟨⟩, [])

/-- Did a role query answer `true` without error? (The collection test of
`getShards`: an index enters the shard set exactly when the predicate returns
`(true, nil)`.) -/
def okTrue : Except Err Bool → Bool
  | .ok true => true
  | _ => false

/-! ### Concrete collaborator instances used in example runs -/

/-- A remote client for examples: every call succeeds. -/
def exClient : APIClient where
  getFile _ := .ok ()
  putFile _ := .ok ⟨⟩

/-- Example sharder: 4 shards, a path maps to its length mod 4; the empty path
cannot be sharded. -/
def exSharder : Sharder where
  getShard p := if p = "" then .error "empty path" else .ok (p.length % 4)
  numShards := 4

/-- Example router: this node is master for even shards, slave for odd shards. -/
def exRouter : Router where
  isLocalMasterShard s := .ok (decide (s % 2 = 0))
  isLocalSlaveShard s := .ok (decide (s % 2 = 1))
  getAPIClient _ := .ok exClient

/-- Example driver: every operation succeeds; read streams relay and close cleanly. -/
def exDriver : Driver where
  initRepository _ _ := none
  getFile _ _ := .ok ⟨.ok (), none⟩
  putFile _ _ _ := none

/-- Example server: of 4 shards, master for 0 and 2, slave for 1 and 3. -/
def exServer : APIServer where
  sharder := exSharder
  router := exRouter
  driver := exDriver

/-- A driver failing every operation with the same opaque error value. -/
def boomDriver : Driver where
  initRepository _ _ := some "boom"
  getFile _ _ := .error "boom"
  putFile _ _ _ := some "boom"

/-- Server with exServer's roles whose driver always fails with "boom". -/
def boomServer : APIServer where
  sharder := exSharder
  router := exRouter
  driver := boomDriver

/-- Router reporting this node master for every shard. -/
def allMasterRouter : Router where
  isLocalMasterShard _ := .ok true
  isLocalSlaveShard _ := .ok false
  getAPIClient _ := .ok exClient

/-- Server local-master for every shard whose driver always fails with "boom". -/
def boomLocalServer : APIServer where
  sharder := exSharder
  router := allMasterRouter
  driver := boomDriver

/-- A remote client whose calls fail with the opaque error "boom". -/
def boomClient : APIClient where
  getFile _ := .error "boom"
  putFile _ := .error "boom"

/-- Router reporting this node master for no shard; remote calls fail with "boom". -/
def noMasterBoomRouter : Router where
  isLocalMasterShard _ := .ok false
  isLocalSlaveShard _ := .ok false
  getAPIClient _ := .ok boomClient

/-- Server forwarding every request to a remote whose calls fail with "boom". -/
def remoteBoomServer : APIServer where
  sharder := exSharder
  router := noMasterBoomRouter
  driver := exDriver

/-- Router whose master-role query fails at shard 2. -/
def failingRouter : Router where
  isLocalMasterShard s := if s = 2 then .error "role oracle down" else .ok (decide (s = 0))
  isLocalSlaveShard _ := .ok false
  getAPIClient _ := .ok exClient

/-- Server whose master-role query fails at shard 2. -/
def failingRoleServer : APIServer where
  sharder := exSharder
  router := failingRouter
  driver := exDriver

/-! ### Branch lemmas for the single-path operations -/

theorem okTrue_eq_true (r : Except Err Bool) : okTrue r = true ↔ r = .ok true := by
  cases r with
  | error e => simp [okTrue]
  | ok b => cases b <;> simp [okTrue]

theorem getFile_sharder_error (a : APIServer) (request : GetFileRequest) (e : Err)
    (h : a.sharder.getShard request.path = .error e) :
    getFile a request = (.error e, [.sharderGetShard request.path]) := by
  unfold getFile
  rw [h]

theorem getFile_router_error (a : APIServer) (request : GetFileRequest) (s : Nat) (e : Err)
    (hs : a.sharder.getShard request.path = .ok s)
    (hm : a.router.isLocalMasterShard s = .error e) :
    getFile a request = (.error e, [.sharderGetShard request.path, .routerIsMaster s]) := by
  simp [getFile, hs, hm]

theorem getFile_local_driver_error (a : APIServer) (request : GetFileRequest) (s : Nat) (e : Err)
    (hs : a.sharder.getShard request.path = .ok s)
    (hm : a.router.isLocalMasterShard s = .ok true)
    (hd : a.driver.getFile request.path s = .error e) :
    getFile a request =
      (.error e,
        [.sharderGetShard request.path, .routerIsMaster s, .driverGetFile request.path s]) := by
  simp [getFile, hs, hm, hd]

theorem getFile_local_ok (a : APIServer) (request : GetFileRequest) (s : Nat) (rc : ReadCloser)
    (hs : a.sharder.getShard request.path = .ok s)
    (hm : a.router.isLocalMasterShard s = .ok true)
    (hd : a.driver.getFile request.path s = .ok rc) :
    getFile a request =
      (deferClose rc,
        [.sharderGetShard request.path, .routerIsMaster s, .driverGetFile request.path s,
         .closeStream request.path s]) := by
  simp [getFile, hs, hm, hd]

theorem getFile_client_error (a : APIServer) (request : GetFileRequest) (s : Nat) (e : Err)
    (hs : a.sharder.getShard request.path = .ok s)
    (hm : a.router.isLocalMasterShard s = .ok false)
    (hc : a.router.getAPIClient s = .error e) :
    getFile a request =
      (.error e,
        [.sharderGetShard request.path, .routerIsMaster s, .routerGetClient s]) := by
  simp [getFile, hs, hm, hc]

theorem getFile_remote (a : APIServer) (request : GetFileRequest) (s : Nat) (c : APIClient)
    (hs : a.sharder.getShard request.path = .ok s)
    (hm : a.router.isLocalMasterShard s = .ok false)
    (hc : a.router.getAPIClient s = .ok c) :
    getFile a request =
      (c.getFile request,
        [.sharderGetShard request.path, .routerIsMaster s, .routerGetClient s,
         .remoteGetFile s request]) := by
  simp [getFile, hs, hm, hc]

theorem putFile_sharder_error (a : APIServer) (request : PutFileRequest) (e : Err)
    (h : a.sharder.getShard request.path = .error e) :
    putFile a request = (.error e, [.sharderGetShard request.path]) := by
  unfold putFile
  rw [h]

theorem putFile_router_error (a : APIServer) (request : PutFileRequest) (s : Nat) (e : Err)
    (hs : a.sharder.getShard request.path = .ok s)
    (hm : a.router.isLocalMasterShard s = .error e) :
    putFile a request = (.error e, [.sharderGetShard request.path, .routerIsMaster s]) := by
  simp [putFile, hs, hm]

theorem putFile_local_driver_error (a : APIServer) (request : PutFileRequest) (s : Nat) (e : Err)
    (hs : a.sharder.getShard request.path = .ok s)
    (hm : a.router.isLocalMasterShard s = .ok true)
    (hd : a.driver.putFile request.path s request.value = some e) :
    putFile a request =
      (.error e,
        [.sharderGetShard request.path, .routerIsMaster s,
         .driverPutFile request.path s request.value]) := by
  simp [putFile, hs, hm, hd]

theorem putFile_local_ok (a : APIServer) (request : PutFileRequest) (s : Nat)
    (hs : a.sharder.getShard request.path = .ok s)
    (hm : a.router.isLocalMasterShard s = .ok true)
    (hd : a.driver.putFile request.path s request.value = none) :
    putFile a request =
      (.ok ⟨⟩,
        [.sharderGetShard request.path, .routerIsMaster s,
         .driverPutFile request.path s request.value]) := by
  simp [putFile, hs, hm, hd]

theorem putFile_client_error (a : APIServer) (request : PutFileRequest) (s : Nat) (e : Err)
    (hs : a.sharder.getShard request.path = .ok s)
    (hm : a.router.isLocalMasterShard s = .ok false)
    (hc : a.router.getAPIClient s = .error e) :
    putFile a request =
      (.error e,
        [.sharderGetShard request.path, .routerIsMaster s, .routerGetClient s]) := by
  simp [putFile, hs, hm, hc]

theorem putFile_remote (a : APIServer) (request : PutFileRequest) (s : Nat) (c : APIClient)
    (hs : a.sharder.getShard request.path = .ok s)
    (hm : a.router.isLocalMasterShard s = .ok false)
    (hc : a.router.getAPIClient s = .ok c) :
    putFile a request =
      (c.putFile request,
        [.sharderGetShard request.path, .routerIsMaster s, .routerGetClient s,
         .remotePutFile s request]) := by
  simp [putFile, hs, hm, hc]

/-! ### Lemmas about the fan-out loop and the shard-set computation -/

theorem runInits_all_ok (d : Driver) (repo : String) (l : List Nat)
    (h : ∀ s, s ∈ l → d.initRepository repo s = none) :
    runInits d repo l = (.ok (), l.map (Event.driverInit repo)) := by
  induction l with
  | nil => rfl
  | cons s rest ih =>
    have hs : d.initRepository repo s = none := h s (List.mem_cons_self s rest)
    have hrest : ∀ x, x ∈ rest → d.initRepository repo x = none :=
      fun x hx => h x (List.mem_cons_of_mem s hx)
    simp [runInits, hs, ih hrest]

theorem runInits_first_fail (d : Driver) (repo : String) (pre : List Nat) (s : Nat)
    (post : List Nat) (e : Err)
    (hpre : ∀ x, x ∈ pre → d.initRepository repo x = none)
    (hs : d.initRepository repo s = some e) :
    runInits d repo (pre ++ s :: post) =
      (.error e, (pre ++ [s]).map (Event.driverInit repo)) := by
  induction pre with
  | nil => simp [runInits, hs]
  | cons x xs ih =>
    have hx : d.initRepository repo x = none := hpre x (List.mem_cons_self x xs)
    have ih2 := ih (fun y hy => hpre y (List.mem_cons_of_mem x hy))
    simp only [List.cons_append]
    simp [runInits, hx, ih2]

theorem runInits_ok_inv (d : Driver) (repo : String) (l : List Nat) (u : Unit)
    (h : (runInits d repo l).1 = .ok u) :
    ∀ s, s ∈ l → d.initRepository repo s = none := by
  induction l with
  | nil => simp
  | cons x xs ih =>
    intro s hsmem
    unfold runInits at h
    cases hx : d.initRepository repo x with
    | some e => rw [hx] at h; simp at h
    | none =>
      rw [hx] at h
      rcases hr : runInits d repo xs with ⟨r, tr⟩
      rw [hr] at h
      simp at h
      rcases List.mem_cons.mp hsmem with rfl | hs'
      · exact hx
      · exact ih (by rw [hr, h]) s hs'

theorem runInits_trace_take (d : Driver) (repo : String) (l : List Nat) :
    ∃ k, (runInits d repo l).2 = (l.take k).map (Event.driverInit repo) := by
  induction l with
  | nil => exact ⟨0, rfl⟩
  | cons x xs ih =>
    cases hx : d.initRepository repo x with
    | some e => exact ⟨1, by simp [runInits, hx]⟩
    | none =>
      obtain ⟨k, hk⟩ := ih
      refine ⟨k + 1, ?_⟩
      rcases hr : runInits d repo xs with ⟨r, tr⟩
      rw [hr] at hk
      simp at hk
      simp [runInits, hx, hr, hk]

theorem getShardsFrom_all_ok (p : Nat → Except Err Bool) (fuel : Nat) :
    ∀ i, (∀ k, k < fuel → ∃ b, p (i + k) = .ok b) →
      getShardsFrom p i fuel = .ok ((List.range' i fuel).filter (fun j => okTrue (p j))) := by
  induction fuel with
  | zero => intro i _; rfl
  | succ m ih =>
    intro i h
    obtain ⟨b, hb⟩ := h 0 (Nat.succ_pos m)
    rw [Nat.add_zero] at hb
    have h' : ∀ k, k < m → ∃ c, p (i + 1 + k) = .ok c := by
      intro k hk
      have := h (k + 1) (Nat.succ_lt_succ hk)
      rwa [show i + (k + 1) = i + 1 + k by omega] at this
    rw [List.range'_succ]
    simp only [getShardsFrom]
    rw [hb, ih (i + 1) h']
    cases b <;> simp [okTrue, hb, List.filter_cons]

theorem getShardsFrom_first_error (p : Nat → Except Err Bool) (j : Nat) :
    ∀ fuel i e, j < fuel → (∀ k, k < j → ∃ b, p (i + k) = .ok b) →
      p (i + j) = .error e → getShardsFrom p i fuel = .error e := by
  induction j with
  | zero =>
    intro fuel i e hj _ he
    cases fuel with
    | zero => omega
    | succ m =>
      rw [Nat.add_zero] at he
      simp [getShardsFrom, he]
  | succ m ih =>
    intro fuel i e hj hok he
    cases fuel with
    | zero => omega
    | succ f =>
      obtain ⟨b, hb⟩ := hok 0 (Nat.succ_pos m)
      rw [Nat.add_zero] at hb
      have hrec := ih f (i + 1) e (by omega)
        (fun k hk => by
          have := hok (k + 1) (Nat.succ_lt_succ hk)
          rwa [show i + (k + 1) = i + 1 + k by omega] at this)
        (by rwa [show i + 1 + m = i + (m + 1) by omega])
      simp [getShardsFrom, hb, hrec]

theorem getShards_all_ok (n : Nat) (p : Nat → Except Err Bool)
    (h : ∀ i, i < n → ∃ b, p i = .ok b) :
    getShards n p = .ok ((List.range n).filter (fun j => okTrue (p j))) := by
  unfold getShards
  rw [List.range_eq_range']
  exact getShardsFrom_all_ok p n 0 (fun k hk => by simpa using h k hk)

theorem getShards_first_error (n : Nat) (p : Nat → Except Err Bool) (j : Nat) (e : Err)
    (hj : j < n) (hok : ∀ i, i < j → ∃ b, p i = .ok b) (he : p j = .error e) :
    getShards n p = .error e := by
  unfold getShards
  exact getShardsFrom_first_error p j n 0 e hj
    (fun k hk => by simpa using hok k hk) (by simpa using he)

theorem initRepository_masters_error (a : APIServer) (request : InitRepositoryRequest)
    (mOrder sOrder : List Nat) (e : Err)
    (h : getShards a.sharder.numShards a.router.isLocalMasterShard = .error e) :
    initRepository a request mOrder sOrder = (.error e, []) := by
  unfold initRepository
  rw [h]

theorem initRepository_master_fail (a : APIServer) (request : InitRepositoryRequest)
    (mOrder sOrder : List Nat) (pre : List Nat) (s : Nat) (post : List Nat) (e : Err) (M : List Nat)
    (hM : getShards a.sharder.numShards a.router.isLocalMasterShard = .ok M)
    (hsplit : mOrder = pre ++ s :: post)
    (hpre : ∀ x, x ∈ pre → a.driver.initRepository request.repository x = none)
    (hs : a.driver.initRepository request.repository s = some e) :
    initRepository a request mOrder sOrder =
      (.error e, (pre ++ [s]).map (Event.driverInit request.repository)) := by
  unfold initRepository
  rw [hM, hsplit, runInits_first_fail a.driver request.repository pre s post e hpre hs]

theorem initRepository_all_ok (a : APIServer) (request : InitRepositoryRequest)
    (mOrder sOrder : List Nat) (M S : List Nat)
    (hM : getShards a.sharder.numShards a.router.isLocalMasterShard = .ok M)
    (hS : getShards a.sharder.numShards a.router.isLocalSlaveShard = .ok S)
    (hall : ∀ s, s ∈ mOrder ++ sOrder → a.driver.initRepository request.repository s = none) :
    initRepository a request mOrder sOrder =
      (.ok ⟨⟩, (mOrder ++ sOrder).map (Event.driverInit request.repository)) := by
  unfold initRepository
  rw [hM, runInits_all_ok a.driver request.repository mOrder
      (fun s hs => hall s (List.mem_append_left _ hs)),
    hS, runInits_all_ok a.driver request.repository sOrder
      (fun s hs => hall s (List.mem_append_right _ hs))]
  simp

theorem initRepository_ok_inv (a : APIServer) (request : InitRepositoryRequest)
    (mOrder sOrder : List Nat) (r : InitRepositoryResponse)
    (h : (initRepository a request mOrder sOrder).1 = .ok r) :
    ∀ s, s ∈ mOrder ++ sOrder → a.driver.initRepository request.repository s = none := by
  unfold initRepository at h
  cases hM : getShards a.sharder.numShards a.router.isLocalMasterShard with
  | error e => rw [hM] at h; simp at h
  | ok M =>
    rw [hM] at h
    rcases hrm : runInits a.driver request.repository mOrder with ⟨rm, mtr⟩
    rw [hrm] at h
    cases rm with
    | error e => simp at h
    | ok u =>
      have hmok : ∀ s, s ∈ mOrder → a.driver.initRepository request.repository s = none :=
        runInits_ok_inv a.driver request.repository mOrder u (by rw [hrm])
      simp only at h
      cases hS : getShards a.sharder.numShards a.router.isLocalSlaveShard with
      | error e => rw [hS] at h; simp at h
      | ok S =>
        rw [hS] at h
        rcases hrs : runInits a.driver request.repository sOrder with ⟨rs, str⟩
        rw [hrs] at h
        cases rs with
        | error e => simp at h
        | ok v =>
          have hsok : ∀ s, s ∈ sOrder → a.driver.initRepository request.repository s = none :=
            runInits_ok_inv a.driver request.repository sOrder v (by rw [hrs])
          intro s hs
          rcases List.mem_append.mp hs with hm | hsl
          · exact hmok s hm
          · exact hsok s hsl

theorem initRepository_trace_shape (a : APIServer) (request : InitRepositoryRequest)
    (mOrder sOrder : List Nat) :
    ∃ k j, (initRepository a request mOrder sOrder).2 =
        ((mOrder.take k).map (Event.driverInit request.repository)) ++
          ((sOrder.take j).map (Event.driverInit request.repository)) ∧
      (j ≠ 0 → mOrder.take k = mOrder) := by
  unfold initRepository
  cases hM : getShards a.sharder.numShards a.router.isLocalMasterShard with
  | error e => exact ⟨0, 0, by simp⟩
  | ok M =>
    rcases hrm : runInits a.driver request.repository mOrder with ⟨rm, mtr⟩
    obtain ⟨k, hk⟩ := runInits_trace_take a.driver request.repository mOrder
    rw [hrm] at hk
    simp only at hk
    cases rm with
    | error e => exact ⟨k, 0, by simp [hrm, hk]⟩
    | ok u =>
      have hmok := runInits_ok_inv a.driver request.repository mOrder u (by rw [hrm])
      have hfull := runInits_all_ok a.driver request.repository mOrder hmok
      have hmtr : mtr = mOrder.map (Event.driverInit request.repository) := by
        rw [hrm] at hfull
        exact congrArg Prod.snd hfull
      cases hS : getShards a.sharder.numShards a.router.isLocalSlaveShard with
      | error e =>
        exact ⟨mOrder.length, 0, by simp [hrm, hmtr, List.take_length]⟩
      | ok S =>
        rcases hrs : runInits a.driver request.repository sOrder with ⟨rs, str⟩
        obtain ⟨j, hj⟩ := runInits_trace_take a.driver request.repository sOrder
        rw [hrs] at hj
        simp only at hj
        cases rs with
        | error e =>
          exact ⟨mOrder.length, j, by
            constructor
            · simp [hrm, hmtr, hj, List.take_length]
            · intro _; exact List.take_length mOrder⟩
        | ok v =>
          exact ⟨mOrder.length, j, by
            constructor
            · simp [hrm, hmtr, hj, List.take_length]
            · intro _; exact List.take_length mOrder⟩

/-! ### Claims -/

/-- C10: for every input and in every collaborator state, ListFiles, GetParent,
GetChildren, Branch, Commit, GetRepositoryInfo and GetCommitInfo return an
empty success response and never an error, query no collaborator (sharder,
router or driver), and mutate no storage: their results are the empty response
and their collaborator-call traces are empty. -/
theorem stub_operations_empty_success (a : APIServer) (r1 : ListFilesRequest)
    (r2 : GetParentRequest) (r3 : GetChildrenRequest) (r4 : BranchRequest)
    (r5 : CommitRequest) (r6 : GetRepositoryInfoRequest) (r7 : GetCommitInfoRequest) :
    listFiles a r1 = (.ok ⟨⟩, []) ∧ getParent a r2 = (.ok ⟨⟩, []) ∧
    getChildren a r3 = (.ok ⟨⟩, []) ∧ branch a r4 = (.ok ⟨⟩, []) ∧
    commit a r5 = (.ok ⟨⟩, []) ∧ getRepositoryInfo a r6 = (.ok ⟨⟩, []) ∧
    getCommitInfo a r7 = (.ok ⟨⟩, []) :=
  ⟨rfl, rfl, rfl, rfl, rfl, rfl, rfl⟩

/-- C4 (amended): PullDiff and PushDiff are unimplemented stubs: for every
call they invoke no collaborator whatsoever (no shard computation, no routing
decision, no driver call, no remote delegation) and return immediate empty
success. -/
theorem diff_operations_are_stubs (a : APIServer) (preq : PullDiffRequest)
    (qreq : PushDiffRequest) :
    pullDiff a preq = (.ok (), []) ∧ pushDiff a qreq = (.ok ⟨⟩, []) :=
  ⟨rfl, rfl⟩

/-- C4 counterexample: on a node that is not local master for shard 3 the claim
requires a PullDiff/PushDiff call touching shard 3 to issue exactly one remote
delegation (and a local one to invoke the driver); the code issues neither:
both traces are empty, so no remote call and no driver call occurs. -/
theorem diff_routing_cex :
    exServer.router.isLocalMasterShard 3 = .ok false ∧
    (pushDiff exServer ⟨3, [1, 2]⟩).2 = [] ∧
    (pullDiff exServer ⟨3⟩).2 = [] ∧
    (pushDiff exServer ⟨3, [1, 2]⟩).2.countP Event.isRemoteOp = 0 ∧
    (pushDiff exServer ⟨3, [1, 2]⟩).2.countP Event.isDriverOp = 0 ∧
    (pullDiff exServer ⟨3⟩).2.countP Event.isRemoteOp = 0 ∧
    (pullDiff exServer ⟨3⟩).2.countP Event.isDriverOp = 0 := by
  decide

/-- C6: when the sharder cannot map a request path to a shard, GetFile and
PutFile return the sharder's error unchanged, and no other collaborator is
queried: the trace holds only the sharder call - no router query, no driver
operation, no storage mutation. -/
theorem routing_error_short_circuits (a : APIServer) (p : String) (v : List Nat) (e : Err)
    (h : a.sharder.getShard p = .error e) :
    getFile a ⟨p⟩ = (.error e, [.sharderGetShard p]) ∧
    putFile a ⟨p, v⟩ = (.error e, [.sharderGetShard p]) ∧
    (getFile a ⟨p⟩).2.countP Event.isRouterOp = 0 ∧
    (getFile a ⟨p⟩).2.countP Event.isDriverOp = 0 ∧
    (putFile a ⟨p, v⟩).2.countP Event.isRouterOp = 0 ∧
    (putFile a ⟨p, v⟩).2.countP Event.isDriverOp = 0 ∧
    (putFile a ⟨p, v⟩).2.countP Event.isStorageWrite = 0 := by
  have hg := getFile_sharder_error a ⟨p⟩ e h
  have hp := putFile_sharder_error a ⟨p, v⟩ e h
  refine ⟨hg, hp, ?_, ?_, ?_, ?_, ?_⟩ <;>
    simp [hg, hp, Event.isRouterOp, Event.isDriverOp, Event.isStorageWrite]

/-- C6 witness: the empty key cannot be sharded; GetFile returns the routing
error untouched with only the sharder queried. -/
theorem routing_error_short_circuits_witness :
    getFile exServer ⟨""⟩ = (.error "empty path", [.sharderGetShard ""]) :=
  (routing_error_short_circuits exServer "" [7] "empty path" rfl).1

/-- C8: for a local GetFile whose driver returns a read stream, the stream's
Close runs on every exit path of the relay (the close appears in the trace for
every copy/close outcome); a relay error takes precedence over a Close error;
and if the relay succeeded but Close fails, the Close error is returned. -/
theorem local_read_close_semantics (a : APIServer) (request : GetFileRequest)
    (s : Nat) (rc : ReadCloser)
    (hs : a.sharder.getShard request.path = .ok s)
    (hm : a.router.isLocalMasterShard s = .ok true)
    (hd : a.driver.getFile request.path s = .ok rc) :
    Event.closeStream request.path s ∈ (getFile a request).2 ∧
    (∀ e, rc.copyResult = .error e → (getFile a request).1 = .error e) ∧
    (∀ e, rc.copyResult = .ok () → rc.closeErr = some e →
      (getFile a request).1 = .error e) ∧
    (rc.copyResult = .ok () → rc.closeErr = none → (getFile a request).1 = .ok ()) := by
  have hg := getFile_local_ok a request s rc hs hm hd
  refine ⟨?_, ?_, ?_, ?_⟩
  · rw [hg]; simp
  · intro e hc; rw [hg]; simp [deferClose, hc]
  · intro e hc hce; rw [hg]; simp [deferClose, hc, hce]
  · intro hc hce; rw [hg]; simp [deferClose, hc, hce]

/-- C8 witness: a clean local read of "aa" (shard 2) closes the stream and
returns success. -/
theorem local_read_close_semantics_witness :
    Event.closeStream "aa" 2 ∈ (getFile exServer ⟨"aa"⟩).2 ∧
    (getFile exServer ⟨"aa"⟩).1 = .ok () := by
  have h := local_read_close_semantics exServer ⟨"aa"⟩ 2 ⟨.ok (), none⟩ rfl rfl rfl
  exact ⟨h.1, h.2.2.2 rfl rfl⟩

/-- C1: each single-path operation (GetFile, PutFile) first computes the shard
of the request path; when the node is local master for that shard it performs
exactly one driver operation and no remote call; when it is not, it performs no
driver operation (local storage is never touched) and - once the remote client
is obtained - exactly one remote invocation carrying the identical request
(zero remote invocations if the client lookup fails); a local driver call and a
remote call never both occur for one request. -/
theorem single_path_ops_route_exactly_once (a : APIServer)
    (greq : GetFileRequest) (preq : PutFileRequest) (sg sp : Nat) (bg bp : Bool)
    (hsg : a.sharder.getShard greq.path = .ok sg)
    (hsp : a.sharder.getShard preq.path = .ok sp)
    (hbg : a.router.isLocalMasterShard sg = .ok bg)
    (hbp : a.router.isLocalMasterShard sp = .ok bp) :
    (bg = true → (getFile a greq).2.countP Event.isDriverOp = 1 ∧
       (getFile a greq).2.countP Event.isRemoteOp = 0) ∧
    (bg = false → (getFile a greq).2.countP Event.isDriverOp = 0 ∧
       (∀ c, a.router.getAPIClient sg = .ok c →
         (getFile a greq).2.countP Event.isRemoteOp = 1 ∧
         Event.remoteGetFile sg greq ∈ (getFile a greq).2) ∧
       (∀ e, a.router.getAPIClient sg = .error e →
         (getFile a greq).2.countP Event.isRemoteOp = 0)) ∧
    (bp = true → (putFile a preq).2.countP Event.isDriverOp = 1 ∧
       (putFile a preq).2.countP Event.isRemoteOp = 0) ∧
    (bp = false → (putFile a preq).2.countP Event.isDriverOp = 0 ∧
       (∀ c, a.router.getAPIClient sp = .ok c →
         (putFile a preq).2.countP Event.isRemoteOp = 1 ∧
         Event.remotePutFile sp preq ∈ (putFile a preq).2) ∧
       (∀ e, a.router.getAPIClient sp = .error e →
         (putFile a preq).2.countP Event.isRemoteOp = 0)) ∧
    ¬((getFile a greq).2.countP Event.isDriverOp ≠ 0 ∧
      (getFile a greq).2.countP Event.isRemoteOp ≠ 0) ∧
    ¬((putFile a preq).2.countP Event.isDriverOp ≠ 0 ∧
      (putFile a preq).2.countP Event.isRemoteOp ≠ 0) := by
  have hGx : (getFile a greq).2.countP Event.isDriverOp = 0 ∨
      (getFile a greq).2.countP Event.isRemoteOp = 0 := by
    cases bg with
    | false =>
      left
      cases hc : a.router.getAPIClient sg with
      | error e =>
        rw [getFile_client_error a greq sg e hsg hbg hc]
        simp [Event.isDriverOp]
      | ok c =>
        rw [getFile_remote a greq sg c hsg hbg hc]
        simp [Event.isDriverOp]
    | true =>
      right
      cases hd : a.driver.getFile greq.path sg with
      | error e =>
        rw [getFile_local_driver_error a greq sg e hsg hbg hd]
        simp [Event.isRemoteOp]
      | ok rc =>
        rw [getFile_local_ok a greq sg rc hsg hbg hd]
        simp [Event.isRemoteOp]
  have hPx : (putFile a preq).2.countP Event.isDriverOp = 0 ∨
      (putFile a preq).2.countP Event.isRemoteOp = 0 := by
    cases bp with
    | false =>
      left
      cases hc : a.router.getAPIClient sp with
      | error e =>
        rw [putFile_client_error a preq sp e hsp hbp hc]
        simp [Event.isDriverOp]
      | ok c =>
        rw [putFile_remote a preq sp c hsp hbp hc]
        simp [Event.isDriverOp]
    | true =>
      right
      cases hd : a.driver.putFile preq.path sp preq.value with
      | some e =>
        rw [putFile_local_driver_error a preq sp e hsp hbp hd]
        simp [Event.isRemoteOp]
      | none =>
        rw [putFile_local_ok a preq sp hsp hbp hd]
        simp [Event.isRemoteOp]
  refine ⟨?_, ?_, ?_, ?_, ?_, ?_⟩
  · rintro rfl
    cases hd : a.driver.getFile greq.path sg with
    | error e =>
      rw [getFile_local_driver_error a greq sg e hsg hbg hd]
      simp [Event.isDriverOp, Event.isRemoteOp]
    | ok rc =>
      rw [getFile_local_ok a greq sg rc hsg hbg hd]
      simp [Event.isDriverOp, Event.isRemoteOp]
  · rintro rfl
    refine ⟨?_, ?_, ?_⟩
    · cases hc : a.router.getAPIClient sg with
      | error e =>
        rw [getFile_client_error a greq sg e hsg hbg hc]
        simp [Event.isDriverOp]
      | ok c =>
        rw [getFile_remote a greq sg c hsg hbg hc]
        simp [Event.isDriverOp]
    · intro c hc
      rw [getFile_remote a greq sg c hsg hbg hc]
      simp [Event.isRemoteOp]
    · intro e hc
      rw [getFile_client_error a greq sg e hsg hbg hc]
      simp [Event.isRemoteOp]
  · rintro rfl
    cases hd : a.driver.putFile preq.path sp preq.value with
    | some e =>
      rw [putFile_local_driver_error a preq sp e hsp hbp hd]
      simp [Event.isDriverOp, Event.isRemoteOp]
    | none =>
      rw [putFile_local_ok a preq sp hsp hbp hd]
      simp [Event.isDriverOp, Event.isRemoteOp]
  · rintro rfl
    refine ⟨?_, ?_, ?_⟩
    · cases hc : a.router.getAPIClient sp with
      | error e =>
        rw [putFile_client_error a preq sp e hsp hbp hc]
        simp [Event.isDriverOp]
      | ok c =>
        rw [putFile_remote a preq sp c hsp hbp hc]
        simp [Event.isDriverOp]
    · intro c hc
      rw [putFile_remote a preq sp c hsp hbp hc]
      simp [Event.isRemoteOp]
    · intro e hc
      rw [putFile_client_error a preq sp e hsp hbp hc]
      simp [Event.isRemoteOp]
  · rintro ⟨h1, h2⟩
    rcases hGx with h | h
    · exact h1 h
    · exact h2 h
  · rintro ⟨h1, h2⟩
    rcases hPx with h | h
    · exact h1 h
    · exact h2 h

/-- C1 witness: with the example server, GetFile "aa" (shard 2, local master)
makes one driver call and no remote call; PutFile "abc" (shard 3, not local)
makes no driver call and one remote call. -/
theorem single_path_ops_route_exactly_once_witness :
    ((getFile exServer ⟨"aa"⟩).2.countP Event.isDriverOp = 1 ∧
     (getFile exServer ⟨"aa"⟩).2.countP Event.isRemoteOp = 0) ∧
    ((putFile exServer ⟨"abc", [9]⟩).2.countP Event.isDriverOp = 0 ∧
     (putFile exServer ⟨"abc", [9]⟩).2.countP Event.isRemoteOp = 1) := by
  obtain ⟨g1, _, _, p0, _, _⟩ :=
    single_path_ops_route_exactly_once exServer ⟨"aa"⟩ ⟨"abc", [9]⟩ 2 3 true false
      rfl rfl rfl rfl
  refine ⟨g1 rfl, (p0 rfl).1, ((p0 rfl).2.1 exClient rfl).1⟩

/-- C5 (amended): the write payload arrives fully materialized as the byte
field of the unary PutFile request, and the server forwards exactly those
bytes unmodified: in the local case the single driver write receives precisely
the request's byte field, and in the forwarded case the identical request is
sent to the remote owner, whose result is returned verbatim. -/
theorem putFile_payload_forwarded_unmodified (a : APIServer) (request : PutFileRequest)
    (s : Nat) (b : Bool)
    (hs : a.sharder.getShard request.path = .ok s)
    (hb : a.router.isLocalMasterShard s = .ok b) :
    (b = true →
      (putFile a request).2.filter Event.isDriverOp =
        [Event.driverPutFile request.path s request.value]) ∧
    (b = false → ∀ c, a.router.getAPIClient s = .ok c →
      (putFile a request).2.filter Event.isRemoteOp = [Event.remotePutFile s request] ∧
      (putFile a request).1 = c.putFile request) := by
  constructor
  · rintro rfl
    cases hd : a.driver.putFile request.path s request.value with
    | some e =>
      rw [putFile_local_driver_error a request s e hs hb hd]
      simp [Event.isDriverOp]
    | none =>
      rw [putFile_local_ok a request s hs hb hd]
      simp [Event.isDriverOp]
  · rintro rfl c hc
    rw [putFile_remote a request s c hs hb hc]
    simp [Event.isRemoteOp]

/-- C5 witness: a local PutFile of bytes [4,5] to "aa" (shard 2) performs one
driver write carrying exactly those bytes. -/
theorem putFile_payload_forwarded_unmodified_witness :
    (putFile exServer ⟨"aa", [4, 5]⟩).2.filter Event.isDriverOp =
      [Event.driverPutFile "aa" 2 [4, 5]] :=
  (putFile_payload_forwarded_unmodified exServer ⟨"aa", [4, 5]⟩ 2 true rfl rfl).1 rfl

/-- C5 counterexample: a concrete local PutFile exhibits the full payload
handled as one unit inside the coordination layer: the unary request already
carries the complete byte slice `Value = [1,2,3]`, and the single driver write
receives it whole (the server passes `bytes.NewReader(request.Value)`),
contradicting "the full payload is never materialized as a single unit inside
the coordination layer". -/
theorem putFile_payload_materialized_cex :
    (putFile exServer ⟨"aa", [1, 2, 3]⟩).2.filter Event.isDriverOp =
      [Event.driverPutFile "aa" 2 [1, 2, 3]] ∧
    (putFile exServer ⟨"aa", [1, 2, 3]⟩).1 = .ok ⟨⟩ := by
  decide

/-- C2: for an InitRepository call whose role predicates are error-free
(both shard-set queries succeed), taken over every iteration order the Go map
traversal may produce (any permutation of the master set, then any permutation
of the slave set): when every per-shard init succeeds, the driver is invoked
exactly once per master shard and once per slave shard and nothing else (the
trace is exactly the master order followed by the slave order, so every
master-shard application precedes every slave-shard application, and the
per-shard call counts match the role sets); the call returns success exactly
when all those applications succeed; and in every run no slave-shard call is
made before the whole master order is done. -/
theorem init_fanout_masters_then_slaves (a : APIServer) (request : InitRepositoryRequest)
    (M S mOrder sOrder : List Nat)
    (hM : getShards a.sharder.numShards a.router.isLocalMasterShard = .ok M)
    (hS : getShards a.sharder.numShards a.router.isLocalSlaveShard = .ok S)
    (hmp : mOrder.Perm M) (hsp : sOrder.Perm S) :
    ((∀ s, s ∈ mOrder ++ sOrder → a.driver.initRepository request.repository s = none) →
       initRepository a request mOrder sOrder =
         (.ok ⟨⟩, (mOrder ++ sOrder).map (Event.driverInit request.repository))) ∧
    ((∀ s, s ∈ mOrder ++ sOrder → a.driver.initRepository request.repository s = none) →
       ∀ s, (initRepository a request mOrder sOrder).2.count
           (Event.driverInit request.repository s) = M.count s + S.count s) ∧
    (∀ r, (initRepository a request mOrder sOrder).1 = .ok r →
       ∀ s, s ∈ mOrder ++ sOrder → a.driver.initRepository request.repository s = none) ∧
    (∃ k j, (initRepository a request mOrder sOrder).2 =
        ((mOrder.take k).map (Event.driverInit request.repository)) ++
          ((sOrder.take j).map (Event.driverInit request.repository)) ∧
        (j ≠ 0 → mOrder.take k = mOrder)) := by
  have hinj : Function.Injective (Event.driverInit request.repository) := by
    intro x y hxy
    injection hxy
  refine ⟨fun hall => initRepository_all_ok a request mOrder sOrder M S hM hS hall,
    fun hall s => ?_,
    fun r h => initRepository_ok_inv a request mOrder sOrder r h,
    initRepository_trace_shape a request mOrder sOrder⟩
  rw [initRepository_all_ok a request mOrder sOrder M S hM hS hall]
  simp only [List.map_append, List.count_append]
  rw [List.count_map_of_injective mOrder _ hinj, List.count_map_of_injective sOrder _ hinj,
    hmp.count_eq, hsp.count_eq]

/-- C2 witness: the spec's concrete scenario - 4 shards, node master for
{0,2} and slave for {1,3} - yields exactly 4 driver init calls, shards 0 and 2
before shards 1 and 3, with overall success. -/
theorem init_fanout_masters_then_slaves_witness :
    initRepository exServer ⟨"repo"⟩ [0, 2] [1, 3] =
      (.ok ⟨⟩, [Event.driverInit "repo" 0, Event.driverInit "repo" 2,
        Event.driverInit "repo" 1, Event.driverInit "repo" 3]) := by
  have h := init_fanout_masters_then_slaves exServer ⟨"repo"⟩ [0, 2] [1, 3] [0, 2] [1, 3]
    rfl rfl (List.Perm.refl _) (List.Perm.refl _)
  exact h.1 (fun s _ => rfl)

/-- C3 (amended): within an InitRepository fan-out the shards are attempted in
whatever iteration order the Go map traversal takes (an arbitrary permutation
of the computed shard set - not necessarily shard-index order); no shard
ordered after the first failing shard in that actual order is attempted; the
error reported to the caller is the driver's underlying error returned
verbatim (the coordination layer adds no identification of the failing shard);
and already-applied shards are not rolled back: the storage trace is exactly
the successful prefix followed by the failing call, with no further operation. -/
theorem init_fanout_fail_fast (a : APIServer) (request : InitRepositoryRequest)
    (mOrder sOrder pre post : List Nat) (s : Nat) (e : Err) (M : List Nat)
    (hM : getShards a.sharder.numShards a.router.isLocalMasterShard = .ok M)
    (hmp : mOrder.Perm M)
    (hsplit : mOrder = pre ++ s :: post)
    (hpre : ∀ x, x ∈ pre → a.driver.initRepository request.repository x = none)
    (hs : a.driver.initRepository request.repository s = some e) :
    initRepository a request mOrder sOrder =
      (.error e, (pre ++ [s]).map (Event.driverInit request.repository)) :=
  initRepository_master_fail a request mOrder sOrder pre s post e M hM hsplit hpre hs

/-- C3 witness: with a driver failing every init with "boom" and master set
{0,2}, the run whose map-iteration order is [2,0] stops at its first element:
one init call (shard 2), error "boom" returned verbatim. -/
theorem init_fanout_fail_fast_witness :
    initRepository boomServer ⟨"r"⟩ [2, 0] [] =
      (.error "boom", [Event.driverInit "r" 2]) := by
  have h := init_fanout_fail_fast boomServer ⟨"r"⟩ [2, 0] [] [] [0] 2 "boom" [0, 2]
    rfl (List.Perm.swap 0 2 []) rfl (fun x hx => absurd hx (List.not_mem_nil x)) rfl
  exact h

/-- C3 counterexample: the claim asserts a deterministic shard-index iteration
order and an error identifying the failing shard; both fail. The master set
computed for this node is {0,2}. A legal run of the Go map iteration takes the
order [2,0]; with the driver failing on shard 2, only shard 2 is attempted and
shard 0 - which shard-index order would attempt first - is never attempted.
Moreover the run failing at shard 2 and the run failing at shard 0 return the
identical error value "boom", so the reported error does not identify which
shard failed. -/
theorem init_fanout_order_cex :
    getShards boomServer.sharder.numShards boomServer.router.isLocalMasterShard =
      .ok [0, 2] ∧
    List.Perm [2, 0] [0, 2] ∧
    initRepository boomServer ⟨"r"⟩ [2, 0] [] =
      (.error "boom", [Event.driverInit "r" 2]) ∧
    initRepository boomServer ⟨"r"⟩ [0, 2] [] =
      (.error "boom", [Event.driverInit "r" 0]) ∧
    Event.driverInit "r" 0 ∉ (initRepository boomServer ⟨"r"⟩ [2, 0] []).2 ∧
    (initRepository boomServer ⟨"r"⟩ [2, 0] []).1 =
      (initRepository boomServer ⟨"r"⟩ [0, 2] []).1 := by
  decide

/-- C7 (amended): collaborator errors are surfaced to the caller verbatim -
unchanged, with no routing context (shard, role) added - and the server never
converts a collaborator failure into a default or empty success value: in every
branch of PutFile and InitRepository the returned error is exactly the
collaborator's error value, and a remote result is returned exactly as the
remote produced it. -/
theorem collaborator_errors_surfaced_verbatim (a : APIServer) (request : PutFileRequest)
    (ireq : InitRepositoryRequest) (mOrder sOrder : List Nat) :
    (∀ e, a.sharder.getShard request.path = .error e → (putFile a request).1 = .error e) ∧
    (∀ s e, a.sharder.getShard request.path = .ok s →
       a.router.isLocalMasterShard s = .error e → (putFile a request).1 = .error e) ∧
    (∀ s e, a.sharder.getShard request.path = .ok s →
       a.router.isLocalMasterShard s = .ok false →
       a.router.getAPIClient s = .error e → (putFile a request).1 = .error e) ∧
    (∀ s c, a.sharder.getShard request.path = .ok s →
       a.router.isLocalMasterShard s = .ok false →
       a.router.getAPIClient s = .ok c → (putFile a request).1 = c.putFile request) ∧
    (∀ s e, a.sharder.getShard request.path = .ok s →
       a.router.isLocalMasterShard s = .ok true →
       a.driver.putFile request.path s request.value = some e →
       (putFile a request).1 = .error e) ∧
    (∀ e, getShards a.sharder.numShards a.router.isLocalMasterShard = .error e →
       (initRepository a ireq mOrder sOrder).1 = .error e) ∧
    (∀ M pre s post e,
       getShards a.sharder.numShards a.router.isLocalMasterShard = .ok M →
       mOrder = pre ++ s :: post →
       (∀ x, x ∈ pre → a.driver.initRepository ireq.repository x = none) →
       a.driver.initRepository ireq.repository s = some e →
       (initRepository a ireq mOrder sOrder).1 = .error e) := by
  refine ⟨?_, ?_, ?_, ?_, ?_, ?_, ?_⟩
  · intro e h
    rw [putFile_sharder_error a request e h]
  · intro s e hs hm
    rw [putFile_router_error a request s e hs hm]
  · intro s e hs hm hc
    rw [putFile_client_error a request s e hs hm hc]
  · intro s c hs hm hc
    rw [putFile_remote a request s c hs hm hc]
  · intro s e hs hm hd
    rw [putFile_local_driver_error a request s e hs hm hd]
  · intro e h
    rw [initRepository_masters_error a ireq mOrder sOrder e h]
  · intro M pre s post e hM hsplit hpre hd
    rw [initRepository_master_fail a ireq mOrder sOrder pre s post e M hM hsplit hpre hd]

/-- C7 witness: the example sharder's routing error on the empty path is
returned to the caller exactly as produced. -/
theorem collaborator_errors_surfaced_verbatim_witness :
    (putFile exServer ⟨"", [1]⟩).1 = .error "empty path" :=
  (collaborator_errors_surfaced_verbatim exServer ⟨"", [1]⟩ ⟨"r"⟩ [] []).1
    "empty path" rfl

/-- C7 counterexample: the claim requires every surfaced error to be wrapped
with routing context identifying the shard and role; the code returns
collaborator errors verbatim. With a driver failing every write with the bare
error "boom": the local PutFile failing at shard 1, the local PutFile failing
at shard 2, and a forwarded PutFile whose remote call fails (different shard,
different role, different collaborator) all return the identical value
"boom" - the caller cannot recover which shard or role failed from the error. -/
theorem collaborator_errors_unwrapped_cex :
    boomLocalServer.sharder.getShard "a" = .ok 1 ∧
    boomLocalServer.sharder.getShard "aa" = .ok 2 ∧
    (putFile boomLocalServer ⟨"a", []⟩).1 = .error "boom" ∧
    (putFile boomLocalServer ⟨"aa", []⟩).1 = .error "boom" ∧
    (putFile remoteBoomServer ⟨"a", []⟩).1 = .error "boom" ∧
    (putFile boomLocalServer ⟨"a", []⟩).1 = (putFile boomLocalServer ⟨"aa", []⟩).1 ∧
    (putFile boomLocalServer ⟨"a", []⟩).1 = (putFile remoteBoomServer ⟨"a", []⟩).1 := by
  decide

/-- C9: getShards over an error-free role predicate returns exactly the set of
indices below NumShards whose predicate answers true (characterized both as
the filtered range and by membership); a predicate error at the first failing
index becomes the result; and when the master-set query of InitRepository
fails, the call returns that error having made no driver call at all (empty
storage trace). -/
theorem getShards_exact_role_set (n : Nat) (p : Nat → Except Err Bool) (a : APIServer)
    (ireq : InitRepositoryRequest) (mOrder sOrder : List Nat) :
    ((∀ i, i < n → ∃ b, p i = .ok b) →
       getShards n p = .ok ((List.range n).filter (fun j => okTrue (p j))) ∧
       ∀ M, getShards n p = .ok M → ∀ i, i ∈ M ↔ (i < n ∧ p i = .ok true)) ∧
    (∀ j e, j < n → (∀ i, i < j → ∃ b, p i = .ok b) → p j = .error e →
       getShards n p = .error e) ∧
    (∀ e, getShards a.sharder.numShards a.router.isLocalMasterShard = .error e →
       initRepository a ireq mOrder sOrder = (.error e, [])) := by
  refine ⟨fun h => ⟨getShards_all_ok n p h, ?_⟩,
    fun j e hj hok he => getShards_first_error n p j e hj hok he,
    fun e he => initRepository_masters_error a ireq mOrder sOrder e he⟩
  intro M hM i
  rw [getShards_all_ok n p h] at hM
  have hM2 : M = (List.range n).filter (fun j => okTrue (p j)) := by
    injection hM with h2
    exact h2.symm
  subst hM2
  simp [List.mem_filter, List.mem_range, okTrue_eq_true]

/-- C9 witness: the example router's error-free master predicate yields the
master set {0,2} of 4 shards; a router whose role query fails at shard 2
makes getShards fail with that error and InitRepository return it with an
empty storage trace. -/
theorem getShards_exact_role_set_witness :
    getShards 4 exRouter.isLocalMasterShard = .ok [0, 2] ∧
    getShards 4 failingRouter.isLocalMasterShard = .error "role oracle down" ∧
    initRepository failingRoleServer ⟨"r"⟩ [0] [] = (.error "role oracle down", []) := by
  have h1 := getShards_exact_role_set 4 exRouter.isLocalMasterShard exServer ⟨"r"⟩ [] []
  have h2 := getShards_exact_role_set 4 failingRouter.isLocalMasterShard
    failingRoleServer ⟨"r"⟩ [0] []
  refine ⟨?_, ?_, ?_⟩
  · have hfil := (h1.1 (fun i _ => ⟨decide (i % 2 = 0), rfl⟩)).1
    rw [hfil]
    decide
  · exact h2.2.1 2 "role oracle down" (by omega)
      (fun i hi => ⟨decide (i = 0), by
        have hne : i ≠ 2 := by omega
        simp [failingRouter, hne]⟩) rfl
  · exact h2.2.2 "role oracle down" (by decide)

end Pfs
